import Mathlib

/-!
# up-public-read-checker: the check runner and the good-to-go gate

A shallow embedding of `app.go`.  The Go code talks to the outside world through
`net/http`; the embedding makes that world explicit:

* `Env` holds what the network and the URL parser answer;
* every function returns, next to its Go results, the list of `Event`s it caused
  (requests sent, bodies drained, bodies closed), in program order;
* a Go call either returns or panics, which is what `Outcome` records.
-/

namespace PublicReadChecker

/-! ## Go values -/

/-- A non-nil Go `error`: the only observation the program makes of it is `Error()`. -/
structure GoError where
  text : String
deriving DecidableEq, Repr

/-- The method `err.Error()`. -/
def GoError.Error (e : GoError) : String := e.text

/-- A Go call either returns its results or panics with a run-time error. -/
inductive Outcome (α : Type) where
  | returned (a : α)
  | panicked (reason : String)
deriving DecidableEq, Repr

/-- The run-time error of reading a field through a nil pointer. -/
def nilDereference : String :=
  "runtime error: invalid memory address or nil pointer dereference"

/-- An `io.ReadCloser`, here always a response body; `id` tells bodies apart. -/
structure ReadCloser where
  id : Nat
deriving DecidableEq, Repr

/-- The part of `*http.Request` the program sets: method, URL and the basic-auth
    credentials (`none` while no `Authorization` header is set). -/
structure Request where
  Method : String
  URL : String
  BasicAuth : Option (String × String)
deriving DecidableEq, Repr

/-- The part of `*http.Response` the program reads. -/
structure Response where
  StatusCode : Int
  Body : ReadCloser
deriving DecidableEq, Repr

/-- The constant `http.StatusOK`. -/
def StatusOK : Int := 200

/-- What the program does to the outside world, in program order. -/
inductive Event where
  /-- The call `http.DefaultClient.Do(req)`: one outbound request. -/
  | Do (req : Request)
  /-- The call `io.Copy(ioutil.Discard, body)`: the body is read until it ends. -/
  | Copy (src : ReadCloser)
  /-- The call `body.Close()`. -/
  | Close (body : ReadCloser)
deriving DecidableEq, Repr

/-- The outside world as one invocation sees it.

* `parseFailure u` is the reason `url.Parse` rejects `u`, if it does;
* `quote` is `strconv.Quote`, used only inside an error text;
* `Do req` is what `http.DefaultClient.Do` hands back: Go allows each of response
  and error to be nil or not (a connection or DNS failure is `(none, some err)`). -/
structure Env where
  parseFailure : String → Option GoError
  quote : String → String
  Do : Request → Option Response × Option GoError

/-! ## The pieces of `net/http` and `fmt` the program calls -/

/-- The error `&url.Error{Op, URL, Err}`, whose text is `Op + " " + quote(URL) + ": " + Err`. -/
def urlError (env : Env) (op url : String) (cause : GoError) : GoError :=
  ⟨op ++ " " ++ env.quote url ++ ": " ++ cause.Error⟩

/-- The call `http.NewRequest(method, urlString, nil)`: it fails exactly when the URL does
    not parse (the method given by the program, "GET", is always a valid token), and
    otherwise yields a request with that method and URL and no header. -/
def NewRequest (env : Env) (method urlString : String) : Except GoError Request :=
  match env.parseFailure urlString with
  | some cause => .error (urlError env "parse" urlString cause)
  | none => .ok { Method := method, URL := urlString, BasicAuth := none }

/-- The method `req.SetBasicAuth(user, password)`. -/
def Request.SetBasicAuth (req : Request) (user password : String) : Request :=
  { req with BasicAuth := some (user, password) }

/-- Go's `defer`: the deferred call runs when the body is over, whether the body returned
    or panicked; a panic raised by the deferred call is the one the caller sees. -/
def withDefer {α : Type} (body : Outcome α) (deferred : Outcome Unit × List Event) :
    Outcome α × List Event :=
  match deferred.1 with
  | .panicked reason => (.panicked reason, deferred.2)
  | .returned _ => (body, deferred.2)

/-! ## `checkHTTPOK` (app.go, lines 118-142) -/

/-- The function `checkHTTPOK`. -/
def checkHTTPOK (env : Env) (urlString user password : String) :
    Outcome (String × Option GoError) × List Event :=
  match NewRequest env "GET" urlString with
  | .error err => (.returned (err.Error, some err), [])
  | .ok req =>
    let req := if user ≠ "" then req.SetBasicAuth user password else req
    -- resp, err := http.DefaultClient.Do(req); err is not looked at
    let resp := (env.Do req).1
    -- defer func() { io.Copy(ioutil.Discard, resp.Body); resp.Body.Close() }()
    let deferred : Outcome Unit × List Event :=
      match resp with
      | none => (.panicked nilDereference, [])
      | some r => (.returned (), [Event.Copy r.Body, Event.Close r.Body])
    let body : Outcome (String × Option GoError) :=
      match resp with
      | none => .panicked nilDereference
      | some r =>
        if r.StatusCode = StatusOK then .returned ("", none)
        else
          -- fmt.Errorf("check failed with status %d for url %s", resp.StatusCode, urlString)
          let err : GoError :=
            ⟨"check failed with status " ++ toString r.StatusCode ++ " for url " ++ urlString⟩
          .returned (err.Error, some err)
    let (out, events) := withDefer body deferred
    (out, Event.Do req :: events)

/-! ## The health-check library `go-fthealth/v1a` -/

/-- The struct `fthealth.Check`, with the fields `makeHealthChecks` fills in.  A `Checker`
    is a Go closure `func() (string, error)`: run in a world, it returns or panics, and
    causes events. -/
structure Check where
  BusinessImpact : String
  Name : String
  PanicGuide : String
  Severity : Nat
  TechnicalSummary : String
  Checker : Env → Outcome (String × Option GoError) × List Event

/-- The variable `urlList`. -/
def urlList : List (List String) :=
  [ ["lists", "/__document-store-api/lists/f91b1e6a-5e21-11e6-a72a-bd4bf1198c63"],
    ["content", "/__document-store-api/content/bd1cecf2-893e-11e6-8cb7-e7ada1d123b1"] ]

/-- The loop of `makeHealthChecks` over the entries still to visit; `checks` is the slice
    built so far.  Indexing an entry outside its length is a run-time panic in Go. -/
def makeHealthChecksLoop (baseURL user password : String) :
    List (List String) → List Check → Outcome (List Check)
  | [], checks => .returned checks
  | entry :: rest, checks =>
    match entry[0]?, entry[1]? with
    | some id, some url =>
      let fullURL := baseURL ++ url
      makeHealthChecksLoop baseURL user password rest (checks ++ [
        { BusinessImpact := id ++ " appears to be failing at url " ++ url
          Name := "Check for url " ++ url
          PanicGuide := "Inspect the " ++ id ++ " services in this cluster to find the problem(s)"
          Severity := 1
          TechnicalSummary := "See specific service in question for more technical detail"
          Checker := fun env => checkHTTPOK env fullURL user password }])
    | _, _ => .panicked "runtime error: index out of range"

/-- The function `makeHealthChecks`. -/
def makeHealthChecks (baseURL user password : String) : Outcome (List Check) :=
  makeHealthChecksLoop baseURL user password urlList []

/-! ## The gate `gtg.serve` (app.go, lines 104-116) -/

/-- A body to hand out in examples. -/
def body7 : ReadCloser := ⟨7⟩

/-- A world where every URL parses and every request is answered with `code`. -/
def envStatus (code : Int) : Env :=
  { parseFailure := fun _ => none
    quote := fun u => "\"" ++ u ++ "\""
    Do := fun _ => (some ⟨code, body7⟩, none) }

/-- A world where every URL parses and no request gets a response: the client
    reports "connection refused". -/
def envDown : Env :=
  { parseFailure := fun _ => none
    quote := fun u => "\"" ++ u ++ "\""
    Do := fun _ => (none, some ⟨"dial tcp 127.0.0.1:1234: connect: connection refused"⟩) }

/-- A world where no URL parses. -/
def envBadURL : Env :=
  { parseFailure := fun _ => some ⟨"first path segment in URL cannot contain colon"⟩
    quote := fun u => "\"" ++ u ++ "\""
    Do := fun _ => (some ⟨200, body7⟩, none) }

/-- The request `checkHTTPOK` hands to the client once the URL has parsed. -/
def sentRequest (urlString user password : String) : Request :=
  if user ≠ "" then (Request.mk "GET" urlString none).SetBasicAuth user password
  else Request.mk "GET" urlString none

/-- The requests among a list of events, in order. -/
def requestsSent : List Event → List Request
  | [] => []
  | Event.Do req :: rest => req :: requestsSent rest
  | _ :: rest => requestsSent rest

/-- The text of the error `checkHTTPOK` builds for a status other than 200. -/
def failureText (code : Int) (urlString : String) : String :=
  "check failed with status " ++ toString code ++ " for url " ++ urlString

/-! ## Lemmas on `checkHTTPOK` -/

lemma NewRequest_error_iff (env : Env) (u : String) (e : GoError) :
    NewRequest env "GET" u = .error e ↔
      ∃ cause, env.parseFailure u = some cause ∧ e = urlError env "parse" u cause := by
  unfold NewRequest
  cases h : env.parseFailure u with
  | none => simp
  | some cause =>
    simp only [Except.error.injEq, Option.some.injEq, exists_eq_left']
    exact eq_comm

lemma checkHTTPOK_of_parseFailure (env : Env) (u user password : String) (cause : GoError)
    (h : env.parseFailure u = some cause) :
    checkHTTPOK env u user password =
      (.returned ((urlError env "parse" u cause).Error, some (urlError env "parse" u cause)),
       []) := by
  simp [checkHTTPOK, NewRequest, h]

lemma checkHTTPOK_of_no_response (env : Env) (u user password : String)
    (hparse : env.parseFailure u = none)
    (h : (env.Do (sentRequest u user password)).1 = none) :
    checkHTTPOK env u user password =
      (.panicked nilDereference, [Event.Do (sentRequest u user password)]) := by
  unfold sentRequest at h
  simp only [checkHTTPOK, NewRequest, hparse, sentRequest]
  split_ifs at h ⊢ <;> simp [h, withDefer]

lemma checkHTTPOK_of_response (env : Env) (u user password : String) (r : Response)
    (hparse : env.parseFailure u = none)
    (h : (env.Do (sentRequest u user password)).1 = some r) :
    checkHTTPOK env u user password =
      (if r.StatusCode = 200 then .returned ("", none)
        else .returned (failureText r.StatusCode u, some ⟨failureText r.StatusCode u⟩),
       [Event.Do (sentRequest u user password), Event.Copy r.Body, Event.Close r.Body]) := by
  unfold sentRequest at h
  simp only [checkHTTPOK, NewRequest, hparse, sentRequest]
  split_ifs at h ⊢ <;> simp_all [withDefer, StatusOK, failureText, GoError.Error]

lemma sent_iff (env : Env) (u user password : String) (req : Request) :
    Event.Do req ∈ (checkHTTPOK env u user password).2 ↔
      env.parseFailure u = none ∧ req = sentRequest u user password := by
  cases hparse : env.parseFailure u with
  | some cause => simp [checkHTTPOK_of_parseFailure env u user password cause hparse]
  | none =>
    cases h : (env.Do (sentRequest u user password)).1 with
    | none => simp [checkHTTPOK_of_no_response env u user password hparse h]
    | some r => simp [checkHTTPOK_of_response env u user password r hparse h]

lemma sentRequest_eq (u user password : String) :
    sentRequest u user password =
      ⟨"GET", u, if user = "" then none else some (user, password)⟩ := by
  unfold sentRequest
  split_ifs with h <;> simp_all [Request.SetBasicAuth]

lemma urlError_text_ne_empty (env : Env) (u : String) (cause : GoError) :
    (urlError env "parse" u cause).Error ≠ "" := by
  intro h
  have hlen := congrArg String.length h
  simp [urlError, GoError.Error, String.length_append] at hlen
  exact absurd hlen.1.1.1 (by decide)

lemma failureText_ne_empty (code : Int) (u : String) : failureText code u ≠ "" := by
  intro h
  have hlen := congrArg String.length h
  simp [failureText, String.length_append] at hlen
  exact absurd hlen.1.1.1 (by decide)

/-! ## The check runner -/

/-- C2: for every URL that parses, every user and every password, if the GET request for
    that URL (with the credentials when the user name is not empty) is answered with
    status 200, `checkHTTPOK` returns the empty message and a nil error. -/
theorem checkHTTPOK_success_on_200 (env : Env) (urlString user password : String)
    (resp : Response) (err : Option GoError)
    (hparse : env.parseFailure urlString = none)
    (hanswer : env.Do ⟨"GET", urlString, if user = "" then none else some (user, password)⟩
      = (some resp, err))
    (hcode : resp.StatusCode = 200) :
    (checkHTTPOK env urlString user password).1 = .returned ("", none) := by
  rw [← sentRequest_eq] at hanswer
  have hresp : (env.Do (sentRequest urlString user password)).1 = some resp := by
    rw [hanswer]
  rw [checkHTTPOK_of_response env urlString user password resp hparse hresp]
  simp [hcode]

/-- Two runs of `checkHTTPOK` against an endpoint that answers 200: without a user, and
    with a user and a password. -/
theorem checkHTTPOK_success_on_200_witness :
    (checkHTTPOK (envStatus 200) "http://localhost:1234/x" "" "").1 = .returned ("", none) ∧
    (checkHTTPOK (envStatus 200) "http://localhost:1234/x" "alice" "secret").1
      = .returned ("", none) :=
  ⟨checkHTTPOK_success_on_200 (envStatus 200) "http://localhost:1234/x" "" ""
     ⟨200, body7⟩ none rfl rfl rfl,
   checkHTTPOK_success_on_200 (envStatus 200) "http://localhost:1234/x" "alice" "secret"
     ⟨200, body7⟩ none rfl rfl rfl⟩

/-- C3: for every URL that parses, every user and every password, if the GET request for
    that URL is answered with a status other than 200, `checkHTTPOK` returns a non-nil
    error together with that error's text, and the text contains the status code in
    decimal and the URL that was checked. -/
theorem checkHTTPOK_failure_on_other_status (env : Env) (urlString user password : String)
    (resp : Response) (err : Option GoError)
    (hparse : env.parseFailure urlString = none)
    (hanswer : env.Do ⟨"GET", urlString, if user = "" then none else some (user, password)⟩
      = (some resp, err))
    (hcode : resp.StatusCode ≠ 200) :
    ∃ e : GoError,
      (checkHTTPOK env urlString user password).1 = .returned (e.Error, some e) ∧
      (∃ before after : String, e.Error = before ++ toString resp.StatusCode ++ after) ∧
      (∃ before after : String, e.Error = before ++ urlString ++ after) := by
  rw [← sentRequest_eq] at hanswer
  have hresp : (env.Do (sentRequest urlString user password)).1 = some resp := by
    rw [hanswer]
  rw [checkHTTPOK_of_response env urlString user password resp hparse hresp]
  refine ⟨⟨failureText resp.StatusCode urlString⟩, by simp [hcode, GoError.Error], ?_, ?_⟩
  · exact ⟨"check failed with status ", " for url " ++ urlString, by
      simp [GoError.Error, failureText, String.append_assoc]⟩
  · exact ⟨"check failed with status " ++ toString resp.StatusCode ++ " for url ", "", by
      simp [GoError.Error, failureText]⟩

/-- Two runs of `checkHTTPOK`: against an endpoint that answers 204, without a user, and
    against one that answers 500, with a user and a password. -/
theorem checkHTTPOK_failure_on_other_status_witness :
    (∃ e : GoError,
      (checkHTTPOK (envStatus 204) "http://localhost:1234/x" "" "").1
        = .returned (e.Error, some e) ∧
      (∃ before after : String, e.Error = before ++ toString (204 : Int) ++ after) ∧
      (∃ before after : String, e.Error = before ++ "http://localhost:1234/x" ++ after)) ∧
    (∃ e : GoError,
      (checkHTTPOK (envStatus 500) "http://localhost:1234/x" "alice" "secret").1
        = .returned (e.Error, some e) ∧
      (∃ before after : String, e.Error = before ++ toString (500 : Int) ++ after) ∧
      (∃ before after : String, e.Error = before ++ "http://localhost:1234/x" ++ after)) :=
  ⟨checkHTTPOK_failure_on_other_status (envStatus 204) "http://localhost:1234/x" "" ""
     ⟨204, body7⟩ none rfl rfl (by decide),
   checkHTTPOK_failure_on_other_status (envStatus 500) "http://localhost:1234/x" "alice"
     "secret" ⟨500, body7⟩ none rfl rfl (by decide)⟩

/-- C4: for every URL that parses, every user and every password, `checkHTTPOK` hands
    exactly one request to the client, and that request carries the configured user and
    password as basic-auth credentials if and only if the user name is not empty; with
    an empty user name it carries no credentials, whatever the password. -/
theorem checkHTTPOK_basic_auth (env : Env) (urlString user password : String)
    (hparse : env.parseFailure urlString = none) :
    ∃ req, requestsSent (checkHTTPOK env urlString user password).2 = [req] ∧
      (req.BasicAuth = some (user, password) ↔ user ≠ "") ∧
      (req.BasicAuth = none ↔ user = "") := by
  have hauth : ((sentRequest urlString user password).BasicAuth = some (user, password)
        ↔ user ≠ "") ∧
      ((sentRequest urlString user password).BasicAuth = none ↔ user = "") := by
    unfold sentRequest
    split_ifs with h <;> simp_all [Request.SetBasicAuth]
  refine ⟨sentRequest urlString user password, ?_, hauth⟩
  cases hresp : (env.Do (sentRequest urlString user password)).1 with
  | none =>
    rw [checkHTTPOK_of_no_response env urlString user password hparse hresp]
    simp [requestsSent]
  | some resp =>
    rw [checkHTTPOK_of_response env urlString user password resp hparse hresp]
    simp [requestsSent]

/-- Two runs of `checkHTTPOK`: with a user and a password, and with an empty user name
    and a password. -/
theorem checkHTTPOK_basic_auth_witness :
    (∃ req, requestsSent (checkHTTPOK (envStatus 200) "http://localhost:1234/x" "alice"
          "secret").2 = [req] ∧
      (req.BasicAuth = some ("alice", "secret") ↔ ("alice" : String) ≠ "") ∧
      (req.BasicAuth = none ↔ ("alice" : String) = "")) ∧
    (∃ req, requestsSent (checkHTTPOK (envStatus 200) "http://localhost:1234/x" ""
          "secret").2 = [req] ∧
      (req.BasicAuth = some ("", "secret") ↔ ("" : String) ≠ "") ∧
      (req.BasicAuth = none ↔ ("" : String) = "")) :=
  ⟨checkHTTPOK_basic_auth (envStatus 200) "http://localhost:1234/x" "alice" "secret" rfl,
   checkHTTPOK_basic_auth (envStatus 200) "http://localhost:1234/x" "" "secret" rfl⟩

/-- C5, at a failing input: when the client hands back an error and no response,
    `checkHTTPOK` does not return; it panics on the nil response, after the request
    has been sent. -/
theorem checkHTTPOK_panics_without_response :
    checkHTTPOK envDown "http://localhost:1234/x" "" "" =
      (.panicked nilDereference, [Event.Do ⟨"GET", "http://localhost:1234/x", none⟩]) := by
  decide

/-- C6: when building the GET request fails with `e`, `checkHTTPOK` returns the text of
    `e` together with `e` itself, and causes no event: no request is sent. -/
theorem checkHTTPOK_construction_error (env : Env) (urlString user password : String)
    (e : GoError) (hfail : NewRequest env "GET" urlString = .error e) :
    checkHTTPOK env urlString user password = (.returned (e.Error, some e), []) := by
  obtain ⟨cause, hparse, rfl⟩ := (NewRequest_error_iff env urlString e).1 hfail
  exact checkHTTPOK_of_parseFailure env urlString user password cause hparse

/-- A run of `checkHTTPOK` on a URL that does not parse. -/
theorem checkHTTPOK_construction_error_witness :
    NewRequest envBadURL "GET" ":x" =
        .error ⟨"parse \":x\": first path segment in URL cannot contain colon"⟩ ∧
      checkHTTPOK envBadURL ":x" "u" "p" =
        (.returned ("parse \":x\": first path segment in URL cannot contain colon",
          some ⟨"parse \":x\": first path segment in URL cannot contain colon"⟩), []) :=
  ⟨rfl,
   checkHTTPOK_construction_error envBadURL ":x" "u" "p"
     ⟨"parse \":x\": first path segment in URL cannot contain colon"⟩ rfl⟩

/-- C7: in every execution of `checkHTTPOK` that sends a request, each response the client
    hands back has its body drained and then closed, once each and in that order, and
    the function returns; and whenever the function returns after sending a request,
    its events are the request, the draining of the response body and its closing. -/
theorem checkHTTPOK_drains_then_closes (env : Env) (urlString user password : String)
    (req : Request)
    (hsent : Event.Do req ∈ (checkHTTPOK env urlString user password).2) :
    (∀ resp err, env.Do req = (some resp, err) →
      (∃ result, (checkHTTPOK env urlString user password).1 = .returned result) ∧
      (checkHTTPOK env urlString user password).2 =
        [Event.Do req, Event.Copy resp.Body, Event.Close resp.Body]) ∧
    (∀ result, (checkHTTPOK env urlString user password).1 = .returned result →
      ∃ resp, (env.Do req).1 = some resp ∧
        (checkHTTPOK env urlString user password).2 =
          [Event.Do req, Event.Copy resp.Body, Event.Close resp.Body]) := by
  obtain ⟨hparse, rfl⟩ := (sent_iff env urlString user password req).1 hsent
  constructor
  · intro resp err hanswer
    have hresp : (env.Do (sentRequest urlString user password)).1 = some resp := by
      rw [hanswer]
    rw [checkHTTPOK_of_response env urlString user password resp hparse hresp]
    refine ⟨?_, rfl⟩
    by_cases hcode : resp.StatusCode = 200
    · exact ⟨_, if_pos hcode⟩
    · exact ⟨_, if_neg hcode⟩
  · intro result hret
    cases hresp : (env.Do (sentRequest urlString user password)).1 with
    | none =>
      rw [checkHTTPOK_of_no_response env urlString user password hparse hresp] at hret
      cases hret
    | some resp =>
      exact ⟨resp, rfl,
        by rw [checkHTTPOK_of_response env urlString user password resp hparse hresp]⟩

/-- A run of `checkHTTPOK` against an endpoint that answers 500. -/
theorem checkHTTPOK_drains_then_closes_witness :
    (∀ resp err, (envStatus 500).Do ⟨"GET", "http://localhost:1234/x", some ("u", "p")⟩
        = (some resp, err) →
      (∃ result, (checkHTTPOK (envStatus 500) "http://localhost:1234/x" "u" "p").1
        = .returned result) ∧
      (checkHTTPOK (envStatus 500) "http://localhost:1234/x" "u" "p").2 =
        [Event.Do ⟨"GET", "http://localhost:1234/x", some ("u", "p")⟩,
         Event.Copy resp.Body, Event.Close resp.Body]) ∧
    (∀ result, (checkHTTPOK (envStatus 500) "http://localhost:1234/x" "u" "p").1
        = .returned result →
      ∃ resp, ((envStatus 500).Do ⟨"GET", "http://localhost:1234/x", some ("u", "p")⟩).1
          = some resp ∧
        (checkHTTPOK (envStatus 500) "http://localhost:1234/x" "u" "p").2 =
          [Event.Do ⟨"GET", "http://localhost:1234/x", some ("u", "p")⟩,
           Event.Copy resp.Body, Event.Close resp.Body]) :=
  checkHTTPOK_drains_then_closes (envStatus 500) "http://localhost:1234/x" "u" "p"
    ⟨"GET", "http://localhost:1234/x", some ("u", "p")⟩ (by decide)

/-- C8: an invocation of `checkHTTPOK` sends at most one request; every request it sends
    is a GET of the given URL; it sends exactly one when the request can be built, and
    none when it cannot. -/
theorem checkHTTPOK_single_get (env : Env) (urlString user password : String) :
    (requestsSent (checkHTTPOK env urlString user password).2).length ≤ 1 ∧
    (∀ req ∈ requestsSent (checkHTTPOK env urlString user password).2,
      req.Method = "GET" ∧ req.URL = urlString) ∧
    (∀ req, NewRequest env "GET" urlString = .ok req →
      (requestsSent (checkHTTPOK env urlString user password).2).length = 1) ∧
    (∀ e, NewRequest env "GET" urlString = .error e →
      requestsSent (checkHTTPOK env urlString user password).2 = []) := by
  have hreq : (sentRequest urlString user password).Method = "GET" ∧
      (sentRequest urlString user password).URL = urlString := by
    unfold sentRequest
    split_ifs <;> simp [Request.SetBasicAuth]
  cases hparse : env.parseFailure urlString with
  | some cause =>
    rw [checkHTTPOK_of_parseFailure env urlString user password cause hparse]
    simp [requestsSent, NewRequest, hparse]
  | none =>
    cases hresp : (env.Do (sentRequest urlString user password)).1 with
    | none =>
      rw [checkHTTPOK_of_no_response env urlString user password hparse hresp]
      simp [requestsSent, NewRequest, hparse, hreq]
    | some resp =>
      rw [checkHTTPOK_of_response env urlString user password resp hparse hresp]
      simp [requestsSent, NewRequest, hparse, hreq]

/-- C10: whenever `checkHTTPOK` returns, the message is empty exactly when the error is
    nil, and a non-nil error comes with its own text as the message. -/
theorem checkHTTPOK_results_agree (env : Env) (urlString user password : String)
    (msg : String) (err : Option GoError)
    (hret : (checkHTTPOK env urlString user password).1 = .returned (msg, err)) :
    (msg = "" ↔ err = none) ∧ (∀ e, err = some e → msg = e.Error) := by
  cases hparse : env.parseFailure urlString with
  | some cause =>
    rw [checkHTTPOK_of_parseFailure env urlString user password cause hparse] at hret
    simp only [Outcome.returned.injEq, Prod.mk.injEq] at hret
    obtain ⟨rfl, rfl⟩ := hret
    simp [urlError_text_ne_empty]
  | none =>
    cases hresp : (env.Do (sentRequest urlString user password)).1 with
    | none =>
      rw [checkHTTPOK_of_no_response env urlString user password hparse hresp] at hret
      cases hret
    | some resp =>
      rw [checkHTTPOK_of_response env urlString user password resp hparse hresp] at hret
      by_cases hcode : resp.StatusCode = 200
      · simp only [if_pos hcode, Outcome.returned.injEq, Prod.mk.injEq] at hret
        obtain ⟨rfl, rfl⟩ := hret
        simp
      · simp only [if_neg hcode, Outcome.returned.injEq, Prod.mk.injEq] at hret
        obtain ⟨rfl, rfl⟩ := hret
        simp [failureText_ne_empty, GoError.Error]

/-- A run of `checkHTTPOK` against an endpoint that answers 404. -/
theorem checkHTTPOK_results_agree_witness :
    (("check failed with status 404 for url http://localhost:1234/x" : String) = "" ↔
      some (GoError.mk "check failed with status 404 for url http://localhost:1234/x") = none) ∧
    (∀ e, some (GoError.mk "check failed with status 404 for url http://localhost:1234/x")
        = some e →
      "check failed with status 404 for url http://localhost:1234/x" = e.Error) :=
  checkHTTPOK_results_agree (envStatus 404) "http://localhost:1234/x" "" ""
    "check failed with status 404 for url http://localhost:1234/x"
    (some ⟨"check failed with status 404 for url http://localhost:1234/x"⟩) (by decide)

/-! ## The configured checks -/

/-- C9: `makeHealthChecks` returns one check per entry of `urlList`, in the order of the
    list; each has severity 1, and its `Checker` runs `checkHTTPOK` on the base URL
    followed directly by that entry's path, with the configured user and password. -/
theorem makeHealthChecks_one_per_entry (baseURL user password : String) :
    ∃ checks, makeHealthChecks baseURL user password = .returned checks ∧
      List.Forall₂
        (fun entry c => ∃ path, entry[1]? = some path ∧ c.Severity = 1 ∧
          c.Checker = fun env => checkHTTPOK env (baseURL ++ path) user password)
        urlList checks :=
  ⟨_, rfl, .cons ⟨_, rfl, rfl, rfl⟩ (.cons ⟨_, rfl, rfl, rfl⟩ .nil)⟩

/-! ## The gate -/

end PublicReadChecker
